import Mathlib

/-!
Verification of the power-calculation program in power-calc.py.

This file gives a shallow embedding of the two core functions of the
program, calc_power (lines 53 to 94) and clean_or_compute_data (lines 99
to 141), and proves theorems settling the specification claims.

Modelling conventions:
* Values occurring in the JSON measurement data are embedded as PyVal:
  null, int, float and string.  Python floats are idealised as real
  numbers, so floating-point rounding is not modelled; the claims ask
  for equalities within floating-point tolerance, which become exact
  equalities over the reals.
* Python dicts are embedded as association lists in insertion order,
  with unique keys, as produced by JSON parsing.  Mutation of a dict
  argument is modelled by returning its post-state.
* The exceptions the program can raise are embedded as PyErr values;
  a function body that may raise returns Except PyErr.
* The three synonym collections are Python sets of strings; iteration
  order over a Python set is implementation defined, so the embedding
  fixes an arbitrary order, the declaration order.  This choice is only
  observable for records containing two different synonyms of the same
  quantity; no theorem below depends on it.
-/

namespace PowerCalc

/-- A Python value occurring in the measurement data or produced by the
program: None, an int, a float (idealised as a real number) or a str. -/
inductive PyVal where
  | vnone : PyVal
  | vint : ℤ → PyVal
  | vfloat : ℝ → PyVal
  | vstr : String → PyVal

/-- The exceptions the program can raise: the AssertionError of the two
assert statements, and the TypeError and ValueError of the arithmetic. -/
inductive PyErr where
  | assertionError : PyErr
  | typeError : PyErr
  | valueError : PyErr
deriving DecidableEq

/-- True exactly for Python None. -/
def PyVal.isNone : PyVal → Bool
  | .vnone => true
  | _ => false

/-- True exactly for numeric Python values (int or float). -/
def PyVal.isNum : PyVal → Bool
  | .vint _ => true
  | .vfloat _ => true
  | _ => false

/-- True exactly for Python strings. -/
def PyVal.isStr : PyVal → Bool
  | .vstr _ => true
  | _ => false

/-- The real number denoted by a numeric PyVal (0 for non-numbers; only
applied under an isNum hypothesis). -/
noncomputable def PyVal.toR : PyVal → ℝ
  | .vint n => (n : ℝ)
  | .vfloat x => x
  | _ => 0

/-- Python string repetition s * n: n copies of s, empty for n below 1. -/
def strRepeat (s : String) (n : ℤ) : String :=
  String.join (List.replicate n.toNat s)

/-- Python multiplication on the value universe: int times int is int,
any other numeric combination is float, a str times an int repeats the
string, every other combination raises TypeError. -/
noncomputable def pymul : PyVal → PyVal → Except PyErr PyVal
  | .vint a, .vint b => .ok (.vint (a * b))
  | .vint a, .vfloat x => .ok (.vfloat ((a : ℝ) * x))
  | .vfloat x, .vint a => .ok (.vfloat (x * (a : ℝ)))
  | .vfloat x, .vfloat y => .ok (.vfloat (x * y))
  | .vstr s, .vint n => .ok (.vstr (strRepeat s n))
  | .vint n, .vstr s => .ok (.vstr (strRepeat s n))
  | _, _ => .error .typeError

/-- Python squaring x ** 2 on the value universe; defined on numbers,
TypeError otherwise. -/
noncomputable def pypow2 : PyVal → Except PyErr PyVal
  | .vint a => .ok (.vint (a ^ 2))
  | .vfloat x => .ok (.vfloat (x ^ 2))
  | _ => .error .typeError

/-- Python subtraction on the value universe; defined on numbers,
TypeError otherwise. -/
noncomputable def pysub : PyVal → PyVal → Except PyErr PyVal
  | .vint a, .vint b => .ok (.vint (a - b))
  | .vint a, .vfloat x => .ok (.vfloat ((a : ℝ) - x))
  | .vfloat x, .vint a => .ok (.vfloat (x - (a : ℝ)))
  | .vfloat x, .vfloat y => .ok (.vfloat (x - y))
  | _, _ => .error .typeError

/-- The math.sqrt call: ValueError on a negative number, TypeError on a
non-number, otherwise the float square root. -/
noncomputable def pysqrt : PyVal → Except PyErr PyVal
  | .vint a => if a < 0 then .error .valueError else .ok (.vfloat (Real.sqrt (a : ℝ)))
  | .vfloat x => if x < 0 then .error .valueError else .ok (.vfloat (Real.sqrt x))
  | _ => .error .typeError

/-- The try body of calc_power, lines 79 to 92 of power-calc.py: the
assert of line 87 raises AssertionError when any input is None, then
s = volts * amps, p = s * pf and q = sqrt of s squared minus p squared
are computed in Python evaluation order, and the triple (p, q, s) of
line 92 is returned. -/
noncomputable def calc_power_body (volts amps pf : PyVal) : Except PyErr (PyVal × PyVal × PyVal) :=
  if volts.isNone || amps.isNone || pf.isNone then .error .assertionError
  else
    match pymul volts amps with
    | .error e => .error e
    | .ok s =>
      match pymul s pf with
      | .error e => .error e
      | .ok p =>
        match pypow2 s with
        | .error e => .error e
        | .ok s2 =>
          match pypow2 p with
          | .error e => .error e
          | .ok p2 =>
            match pysub s2 p2 with
            | .error e => .error e
            | .ok d =>
              match pysqrt d with
              | .error e => .error e
              | .ok q => .ok (p, q, s)

/-- The except clause of calc_power, lines 93 to 94: ValueError and
TypeError are converted to the all-None triple; any other exception,
in particular the AssertionError of line 87, propagates. -/
def pyExcept (r : Except PyErr (PyVal × PyVal × PyVal)) : Except PyErr (PyVal × PyVal × PyVal) :=
  match r with
  | .error .valueError => .ok (.vnone, .vnone, .vnone)
  | .error .typeError => .ok (.vnone, .vnone, .vnone)
  | .error .assertionError => .error .assertionError
  | .ok t => .ok t

/-- calc_power, lines 53 to 94 of power-calc.py. -/
noncomputable def calc_power (volts amps pf : PyVal) : Except PyErr (PyVal × PyVal × PyVal) :=
  pyExcept (calc_power_body volts amps pf)

/-- The voltage synonym set of line 48, in declaration order. -/
def V_NAMES : List String := ["v", "V", "Volts", "Voltage"]

/-- The current synonym set of line 49, in declaration order. -/
def I_NAMES : List String := ["i", "I", "Amps", "Amperes", "Current"]

/-- The power-factor synonym set of line 50, in declaration order. -/
def PF_NAMES : List String := ["pf", "PF", "Power Factor"]

/-- The acceptable_keys list of lines 102 to 112: the union of the three
synonym sets.  Only membership in it is ever used. -/
def acceptable_keys : List String := V_NAMES ++ I_NAMES ++ PF_NAMES

/-- One measurement record: a dict from field names to values. -/
abbrev Record := List (String × PyVal)

/-- A dataset: a dict from record identifiers to records. -/
abbrev Dataset := List (String × Record)

/-- The status dict: record identifier to its list of ignored keys.  In
the source the stored value is the dict with single key ignored wrapping
that list; the wrapper is dropped here. -/
abbrev Status := List (String × List String)

/-- The results dict: identifier to the computed (p, q, s) triple.  In
the source the stored value is the dict with keys p, q and s holding the
three components. -/
abbrev Results := List (String × (PyVal × PyVal × PyVal))

/-- The record after the deletions of lines 115 to 118: every key not in
acceptable_keys is removed, in place, from the caller's record. -/
def filterRec (v : Record) : Record :=
  v.filter (fun kv => acceptable_keys.contains kv.1)

/-- The ignores list of line 116: the keys of the record that are not
acceptable.  The source builds it as a set difference, so its order is
implementation defined; record order is used here. -/
def ignoredKeys (v : Record) : List String :=
  (v.map Prod.fst).filter (fun n => !(acceptable_keys.contains n))

/-- The scan of lines 124 to 129 for one quantity: the loop walks the
quantity's synonym set and overwrites found and analysis on every hit,
so the value retained is the one of the last synonym, in iteration
order, present in the record.  Returns that value, or none when no
synonym of the quantity is a key of the record. -/
def findSyn (names : List String) (v : Record) : Option PyVal :=
  (names.filterMap (fun n => v.lookup n)).getLast?

/-- The number of quantities found by the scan, the len of the found
dict tested by the assert of line 136. -/
def numFound (v : Record) : ℕ :=
  (if (findSyn V_NAMES v).isSome then 1 else 0) +
  (if (findSyn I_NAMES v).isSome then 1 else 0) +
  (if (findSyn PF_NAMES v).isSome then 1 else 0)

/-- The analysis values for one record after lines 122 to 135: each found
quantity carries the value of its matched synonym; a missing power
factor defaults to the float 0.9 (line 133); a missing voltage or
current is set to None (line 135).  The source assigns a default to at
most one missing quantity, namely missing[0], but when two or more are
missing the assert of line 136 raises and the assignment is
unobservable, so on every non-raising path this definition agrees with
the source. -/
def resolveAnalysis (v : Record) : PyVal × PyVal × PyVal :=
  ((findSyn V_NAMES v).getD .vnone,
   (findSyn I_NAMES v).getD .vnone,
   (findSyn PF_NAMES v).getD (.vfloat 0.9))

/-- Python dict assignment status[k] = ig on line 120: an existing entry
for k is overwritten in place, a new key is appended at the end. -/
def statusSet (st : Status) (k : String) (ig : List String) : Status :=
  if st.any (fun e => e.1 == k) then
    st.map (fun e => if e.1 == k then (k, ig) else e)
  else st ++ [(k, ig)]

/-- The observable outcome of one call of clean_or_compute_data: the
post-state of the json_data argument (the loop of lines 113 to 118
deletes keys from the caller's records in place), the post-state of the
status dict (line 120 writes into the caller's dict), the local results
dict, and the exception that aborted the call, if any.  When err is
some, the Python call raised; post and status still describe the dicts
as mutated up to that point, and results the local accumulation, which
is never returned. -/
structure LoopOut where
  post : Dataset
  status : Status
  results : Results
  err : Option PyErr

/-- The per-record loop of clean_or_compute_data, lines 113 to 140.  For
each record: unacceptable keys are deleted from the record (lines 115 to
118) and, when at least one was deleted, recorded in status (lines 119
to 120); the synonym scan and defaulting of lines 122 to 135 yield the
analysis values; the assert of line 136 raises AssertionError when fewer
than two quantities were found; with do_compute set, calc_power is
called on the analysis values (line 138) and its triple stored under the
record identifier (lines 139 to 140).  An exception aborts the loop,
leaving the remaining records untouched. -/
noncomputable def cocLoop (do_compute : Bool) : Dataset → Status → LoopOut
  | [], st => ⟨[], st, [], none⟩
  | (k, v) :: rest, st =>
    let vc := filterRec v
    let st1 := if (ignoredKeys v).isEmpty then st else statusSet st k (ignoredKeys v)
    if numFound vc < 2 then
      ⟨(k, vc) :: rest, st1, [], some PyErr.assertionError⟩
    else if do_compute then
      match calc_power (resolveAnalysis vc).1 (resolveAnalysis vc).2.1 (resolveAnalysis vc).2.2 with
      | .error e => ⟨(k, vc) :: rest, st1, [], some e⟩
      | .ok t =>
        let o := cocLoop do_compute rest st1
        ⟨(k, vc) :: o.post, o.status, (k, t) :: o.results, o.err⟩
    else
      let o := cocLoop do_compute rest st1
      ⟨(k, vc) :: o.post, o.status, o.results, o.err⟩

/-- clean_or_compute_data, lines 99 to 141 of power-calc.py, with the
acceptable_names argument fixed to its default, the only value any call
site passes.  The Python return value of line 141 is the post field when
do_compute is false and the results field when it is true, provided err
is none; when err is some the call raised instead of returning. -/
noncomputable def clean_or_compute_data (json_data : Dataset) (status : Status) (do_compute : Bool) : LoopOut :=
  cocLoop do_compute json_data status

/-- Lookup in the status dict. -/
def statusLookup (st : Status) (k : String) : Option (List String) :=
  st.lookup k

/-- Models the default-argument semantics of the status parameter on
line 99: the default dict is created once, when the def statement is
evaluated, so every call that omits status reads and mutates that same
dict.  Given the datasets passed to a sequence of cleaning calls that
all omit status, returns the contents of the shared default dict after
those calls; the dict a call receives is this value for the preceding
prefix of calls, the empty dict for the first call. -/
noncomputable def sharedStatusAfter (calls : List Dataset) : Status :=
  calls.foldl (fun st d => (clean_or_compute_data d st false).status) []

/-! ### Basic lemmas about the arithmetic layer -/

lemma isNone_eq_false_of_isNum {a : PyVal} (h : a.isNum = true) : a.isNone = false := by
  cases a <;> simp_all [PyVal.isNum, PyVal.isNone]

lemma pymul_num {a b : PyVal} (ha : a.isNum = true) (hb : b.isNum = true) :
    ∃ c : PyVal, pymul a b = .ok c ∧ c.isNum = true ∧ c.toR = a.toR * b.toR := by
  cases a with
  | vint m =>
    cases b with
    | vint n => exact ⟨.vint (m * n), rfl, rfl, by simp only [PyVal.toR, Int.cast_mul]⟩
    | vfloat y => exact ⟨.vfloat ((m : ℝ) * y), rfl, rfl, rfl⟩
    | vnone => exact absurd hb (by simp [PyVal.isNum])
    | vstr s => exact absurd hb (by simp [PyVal.isNum])
  | vfloat x =>
    cases b with
    | vint n => exact ⟨.vfloat (x * (n : ℝ)), rfl, rfl, rfl⟩
    | vfloat y => exact ⟨.vfloat (x * y), rfl, rfl, rfl⟩
    | vnone => exact absurd hb (by simp [PyVal.isNum])
    | vstr s => exact absurd hb (by simp [PyVal.isNum])
  | vnone => exact absurd ha (by simp [PyVal.isNum])
  | vstr s => exact absurd ha (by simp [PyVal.isNum])

lemma pypow2_num {a : PyVal} (ha : a.isNum = true) :
    ∃ c : PyVal, pypow2 a = .ok c ∧ c.isNum = true ∧ c.toR = a.toR ^ 2 := by
  cases a with
  | vint m => exact ⟨.vint (m ^ 2), rfl, rfl, by simp only [PyVal.toR, Int.cast_pow]⟩
  | vfloat x => exact ⟨.vfloat (x ^ 2), rfl, rfl, rfl⟩
  | vnone => exact absurd ha (by simp [PyVal.isNum])
  | vstr s => exact absurd ha (by simp [PyVal.isNum])

lemma pysub_num {a b : PyVal} (ha : a.isNum = true) (hb : b.isNum = true) :
    ∃ c : PyVal, pysub a b = .ok c ∧ c.isNum = true ∧ c.toR = a.toR - b.toR := by
  cases a with
  | vint m =>
    cases b with
    | vint n => exact ⟨.vint (m - n), rfl, rfl, by simp only [PyVal.toR, Int.cast_sub]⟩
    | vfloat y => exact ⟨.vfloat ((m : ℝ) - y), rfl, rfl, rfl⟩
    | vnone => exact absurd hb (by simp [PyVal.isNum])
    | vstr s => exact absurd hb (by simp [PyVal.isNum])
  | vfloat x =>
    cases b with
    | vint n => exact ⟨.vfloat (x - (n : ℝ)), rfl, rfl, rfl⟩
    | vfloat y => exact ⟨.vfloat (x - y), rfl, rfl, rfl⟩
    | vnone => exact absurd hb (by simp [PyVal.isNum])
    | vstr s => exact absurd hb (by simp [PyVal.isNum])
  | vnone => exact absurd ha (by simp [PyVal.isNum])
  | vstr s => exact absurd ha (by simp [PyVal.isNum])

lemma pysqrt_nonneg {a : PyVal} (ha : a.isNum = true) (h0 : 0 ≤ a.toR) :
    pysqrt a = .ok (.vfloat (Real.sqrt a.toR)) := by
  cases a with
  | vint n =>
    have hn : ¬ n < 0 := by
      simp only [PyVal.toR] at h0
      exact not_lt.mpr (by exact_mod_cast h0)
    simp [pysqrt, hn, PyVal.toR]
  | vfloat x =>
    simp only [PyVal.toR] at h0
    simp [pysqrt, not_lt.mpr h0, PyVal.toR]
  | vnone => simp [PyVal.isNum] at ha
  | vstr s => simp [PyVal.isNum] at ha

lemma pysqrt_neg {a : PyVal} (ha : a.isNum = true) (h0 : a.toR < 0) :
    pysqrt a = .error .valueError := by
  cases a with
  | vint n =>
    have hn : n < 0 := by
      simp only [PyVal.toR] at h0
      exact_mod_cast h0
    simp [pysqrt, hn]
  | vfloat x =>
    simp only [PyVal.toR] at h0
    simp [pysqrt, h0]
  | vnone => simp [PyVal.isNum] at ha
  | vstr s => simp [PyVal.isNum] at ha

/-! ### Claim C1 -/

/-- C1: for every call of calc_power in which voltage, current and power
factor are all present and numeric and the radicand s^2 - p^2 is
non-negative, the returned triple satisfies s = voltage * current,
p = s * powerFactor and q = sqrt of s^2 - p^2, hence p^2 + q^2 = s^2
(exactly, floats being idealised as reals). -/
theorem C1_calc_power_triangle (volts amps pf : PyVal)
    (hv : volts.isNum = true) (ha : amps.isNum = true) (hp : pf.isNum = true)
    (hrad : 0 ≤ (volts.toR * amps.toR) ^ 2 - (volts.toR * amps.toR * pf.toR) ^ 2) :
    ∃ p q s : PyVal,
      calc_power volts amps pf = .ok (p, q, s) ∧
      s.toR = volts.toR * amps.toR ∧
      p.toR = s.toR * pf.toR ∧
      q.toR = Real.sqrt (s.toR ^ 2 - p.toR ^ 2) ∧
      p.toR ^ 2 + q.toR ^ 2 = s.toR ^ 2 := by
  obtain ⟨s, hs, hsN, hsR⟩ := pymul_num hv ha
  obtain ⟨p, hpm, hpN, hpR⟩ := pymul_num hsN hp
  obtain ⟨s2, hs2, hs2N, hs2R⟩ := pypow2_num hsN
  obtain ⟨p2, hq2, hp2N, hp2R⟩ := pypow2_num hpN
  obtain ⟨d, hd, hdN, hdR⟩ := pysub_num hs2N hp2N
  have hdval : d.toR = s.toR ^ 2 - p.toR ^ 2 := by rw [hdR, hs2R, hp2R]
  have hd0 : 0 ≤ d.toR := by rw [hdval, hpR, hsR]; exact hrad
  have hsq := pysqrt_nonneg hdN hd0
  refine ⟨p, .vfloat (Real.sqrt d.toR), s, ?_, hsR, hpR, ?_, ?_⟩
  · simp [calc_power, calc_power_body, isNone_eq_false_of_isNum hv,
      isNone_eq_false_of_isNum ha, isNone_eq_false_of_isNum hp,
      hs, hpm, hs2, hq2, hd, hsq, pyExcept]
  · rw [← hdval]
    rfl
  · rw [show (PyVal.vfloat (Real.sqrt d.toR)).toR = Real.sqrt d.toR from rfl,
      Real.sq_sqrt hd0, hdval]
    ring

/-- Witness for C1 at the concrete record of the spec scenario:
voltage 120, current 10, power factor 0.8. -/
theorem C1_witness : ∃ p q s : PyVal,
    calc_power (PyVal.vint 120) (PyVal.vint 10) (PyVal.vfloat 0.8) = .ok (p, q, s) ∧
    s.toR = (PyVal.vint 120).toR * (PyVal.vint 10).toR ∧
    p.toR = s.toR * (PyVal.vfloat 0.8).toR ∧
    q.toR = Real.sqrt (s.toR ^ 2 - p.toR ^ 2) ∧
    p.toR ^ 2 + q.toR ^ 2 = s.toR ^ 2 :=
  C1_calc_power_triangle (PyVal.vint 120) (PyVal.vint 10) (PyVal.vfloat 0.8)
    rfl rfl rfl (by norm_num [PyVal.toR])

/-! ### Claim C2 -/

/-- C2 counterexample: calc_power with a None input does not return the
all-None triple; the assert of line 87 raises an AssertionError that the
except clause of line 93, which catches only ValueError and TypeError,
lets propagate. -/
theorem C2_counterexample :
    calc_power PyVal.vnone (PyVal.vint 5) (PyVal.vfloat 0.9) ≠ .ok (.vnone, .vnone, .vnone) := by
  simp [calc_power, calc_power_body, pyExcept, PyVal.isNone]

/-- C2 amended: for every call of calc_power in which at least one of
the three inputs is None, the call raises AssertionError (propagated to
the caller) instead of returning a value. -/
theorem C2_amended_raises (volts amps pf : PyVal)
    (h : volts.isNone = true ∨ amps.isNone = true ∨ pf.isNone = true) :
    calc_power volts amps pf = .error PyErr.assertionError := by
  have hg : (volts.isNone || amps.isNone || pf.isNone) = true := by
    rcases h with h | h | h <;> simp [h]
  simp [calc_power, calc_power_body, hg, pyExcept]

/-- Witness for the amended C2 at the spec's own input. -/
theorem C2_amended_witness :
    calc_power PyVal.vnone (PyVal.vint 5) (PyVal.vfloat 0.9) = .error PyErr.assertionError :=
  C2_amended_raises PyVal.vnone (PyVal.vint 5) (PyVal.vfloat 0.9) (Or.inl rfl)

/-! ### Claim C5 -/

/-- C5: for every call of calc_power whose three inputs are all present
(not None) but where some input is a string or the inputs are numeric
with a negative radicand, the function returns the all-None triple: the
arithmetic raises TypeError, or math.sqrt raises ValueError, and the
except clause of line 93 converts either into (None, None, None). -/
theorem C5_invalid_input_all_none (volts amps pf : PyVal)
    (hv : volts.isNone = false) (ha : amps.isNone = false) (hp : pf.isNone = false)
    (hbad : volts.isStr = true ∨ amps.isStr = true ∨ pf.isStr = true ∨
      (volts.isNum = true ∧ amps.isNum = true ∧ pf.isNum = true ∧
        (volts.toR * amps.toR) ^ 2 - (volts.toR * amps.toR * pf.toR) ^ 2 < 0)) :
    calc_power volts amps pf = .ok (.vnone, .vnone, .vnone) := by
  rcases hbad with h | h | h | ⟨hnv, hna, hnp, hneg⟩
  · cases volts <;> cases amps <;> cases pf <;>
      simp_all [PyVal.isNone, PyVal.isStr, calc_power, calc_power_body,
        pymul, pypow2, pysub, pysqrt, pyExcept]
  · cases volts <;> cases amps <;> cases pf <;>
      simp_all [PyVal.isNone, PyVal.isStr, calc_power, calc_power_body,
        pymul, pypow2, pysub, pysqrt, pyExcept]
  · cases volts <;> cases amps <;> cases pf <;>
      simp_all [PyVal.isNone, PyVal.isStr, calc_power, calc_power_body,
        pymul, pypow2, pysub, pysqrt, pyExcept]
  · obtain ⟨s, hs, hsN, hsR⟩ := pymul_num hnv hna
    obtain ⟨p, hpm, hpN, hpR⟩ := pymul_num hsN hnp
    obtain ⟨s2, hs2, hs2N, hs2R⟩ := pypow2_num hsN
    obtain ⟨p2, hq2, hp2N, hp2R⟩ := pypow2_num hpN
    obtain ⟨d, hd, hdN, hdR⟩ := pysub_num hs2N hp2N
    have hdneg : d.toR < 0 := by
      rw [hdR, hs2R, hp2R, hpR, hsR]; exact hneg
    have hsq := pysqrt_neg hdN hdneg
    simp [calc_power, calc_power_body, isNone_eq_false_of_isNum hnv,
      isNone_eq_false_of_isNum hna, isNone_eq_false_of_isNum hnp,
      hs, hpm, hs2, hq2, hd, hsq, pyExcept]

/-- Witness for C5 at the spec's own input: the string input of the
robustness test, calc_power of the string abc, 5 and 0.9. -/
theorem C5_witness :
    calc_power (PyVal.vstr ("abc")) (PyVal.vint 5) (PyVal.vfloat 0.9) = .ok (.vnone, .vnone, .vnone) :=
  C5_invalid_input_all_none (PyVal.vstr ("abc")) (PyVal.vint 5) (PyVal.vfloat 0.9)
    rfl rfl rfl (Or.inl rfl)

/-! ### Basic lemmas about the resolver layer -/

lemma filterRec_idem (v : Record) : filterRec (filterRec v) = filterRec v := by
  simp [filterRec, List.filter_filter]

lemma ignoredKeys_filterRec (v : Record) : ignoredKeys (filterRec v) = [] := by
  rw [ignoredKeys, List.filter_eq_nil_iff]
  intro a ha
  obtain ⟨kv, hkv, rfl⟩ := List.mem_map.mp ha
  rw [filterRec] at hkv
  have hc := (List.mem_filter.mp hkv).2
  simpa using hc

/-- On every non-raising cleaning run, the post-state of the dataset is
the input with each record filtered to its acceptable keys. -/
lemma cocLoop_clean_post_of_ok : ∀ (d : Dataset) (st : Status),
    (cocLoop false d st).err = none →
    (cocLoop false d st).post = d.map (fun kv => (kv.1, filterRec kv.2))
  | [], _, _ => rfl
  | (k, v) :: rest, st, h => by
    by_cases h2 : numFound (filterRec v) < 2
    · exfalso
      simp [cocLoop, h2] at h
    · have h' : (cocLoop false rest
          (if ignoredKeys v = [] then st else statusSet st k (ignoredKeys v))).err = none := by
        simpa [cocLoop, h2] using h
      have ih := cocLoop_clean_post_of_ok rest
        (if ignoredKeys v = [] then st else statusSet st k (ignoredKeys v)) h'
      simp [cocLoop, h2, ih]

/-- A cleaning run on an already-cleaned dataset succeeds, changes
nothing and records no ignored keys. -/
lemma cocLoop_clean_idem : ∀ (d : Dataset) (st st2 : Status),
    (cocLoop false d st).err = none →
    cocLoop false (cocLoop false d st).post st2 =
      ⟨(cocLoop false d st).post, st2, [], none⟩
  | [], _, _, _ => rfl
  | (k, v) :: rest, st, st2, h => by
    by_cases h2 : numFound (filterRec v) < 2
    · exfalso
      simp [cocLoop, h2] at h
    · have h' : (cocLoop false rest
          (if ignoredKeys v = [] then st else statusSet st k (ignoredKeys v))).err = none := by
        simpa [cocLoop, h2] using h
      have ih := cocLoop_clean_idem rest
        (if ignoredKeys v = [] then st else statusSet st k (ignoredKeys v)) st2 h'
      simp [cocLoop, h2, filterRec_idem, ignoredKeys_filterRec, ih]

/-! ### Claim C3 -/

/-- C3 counterexample: cleaning the spec's load1 record leaves its keys
exactly as they came in; no canonical key voltage, current or
power_factor is ever produced, so the resolver does not yield the
normalized record the claim describes. -/
theorem C3_counterexample :
    (clean_or_compute_data
        [("load1", [("Voltage", PyVal.vint 120), ("Amperes", PyVal.vint 10), ("Power Factor", PyVal.vfloat 0.8)])]
        [] false).err = none ∧
    (clean_or_compute_data
        [("load1", [("Voltage", PyVal.vint 120), ("Amperes", PyVal.vint 10), ("Power Factor", PyVal.vfloat 0.8)])]
        [] false).post =
      [("load1", [("Voltage", PyVal.vint 120), ("Amperes", PyVal.vint 10), ("Power Factor", PyVal.vfloat 0.8)])] ∧
    (((clean_or_compute_data
        [("load1", [("Voltage", PyVal.vint 120), ("Amperes", PyVal.vint 10), ("Power Factor", PyVal.vfloat 0.8)])]
        [] false).post.lookup ("load1")).getD []).lookup ("voltage") = none :=
  ⟨rfl, rfl, rfl⟩

/-- C3 amended: for every raw record, the Field Resolver produces a
record containing exactly those original key-value pairs whose keys are
recognized synonyms, in their original order; unrecognized fields are
dropped, and key names are not renamed, so the output is keyed by the
original synonyms, not by the canonical names. -/
theorem C3_amended_filter_no_rename (d : Dataset) (st : Status)
    (hok : (clean_or_compute_data d st false).err = none) :
    (clean_or_compute_data d st false).post = d.map (fun kv => (kv.1, filterRec kv.2)) :=
  cocLoop_clean_post_of_ok d st hok

/-- Witness for the amended C3 on a record with one unrecognized key. -/
theorem C3_amended_witness :
    (clean_or_compute_data [("x", [("v", PyVal.vint 1), ("junk", PyVal.vint 2), ("i", PyVal.vint 3)])]
        [] false).post =
      [("x", [("v", PyVal.vint 1), ("i", PyVal.vint 3)])] := by
  rw [C3_amended_filter_no_rename
    [("x", [("v", PyVal.vint 1), ("junk", PyVal.vint 2), ("i", PyVal.vint 3)])] [] rfl]
  rfl

/-! ### Claim C4 -/

/-- C4 counterexample: a record with a current synonym and a power
factor synonym but no voltage synonym resolves without error, because
the assert of line 136 only requires two of the three quantities. -/
theorem C4_counterexample :
    (clean_or_compute_data [("load9", [("i", PyVal.vint 5), ("pf", PyVal.vfloat 0.8)])] [] false).err = none ∧
    findSyn V_NAMES [("i", PyVal.vint 5), ("pf", PyVal.vfloat 0.8)] = none :=
  ⟨rfl, rfl⟩

/-- C4 amended: resolution of a record fails with the insufficient-data
assertion exactly when fewer than two of the three quantities have a
synonym in the record; in particular a record missing only voltage, or
only current, with the other two quantities present, resolves
successfully. -/
theorem C4_amended_two_of_three (k : String) (v : Record) :
    (clean_or_compute_data [(k, v)] [] false).err = some PyErr.assertionError ↔
      numFound (filterRec v) < 2 := by
  constructor
  · intro h
    by_contra h2
    simp [clean_or_compute_data, cocLoop, h2] at h
  · intro h2
    simp [clean_or_compute_data, cocLoop, h2]

/-! ### Claim C6 -/

/-- C6: for every record in which voltage and current synonyms are found
but no power-factor synonym is found, the resolver's analysis values are
the found voltage and current values together with power factor exactly
the float 0.9; and only power factor is ever defaulted: a missing
voltage or current is resolved to None, never to a default. -/
theorem C6_power_factor_default (v : Record) (vV vI : PyVal)
    (hV : findSyn V_NAMES v = some vV) (hI : findSyn I_NAMES v = some vI)
    (hPF : findSyn PF_NAMES v = none) :
    resolveAnalysis v = (vV, vI, PyVal.vfloat 0.9) ∧
    (∀ w : Record, findSyn V_NAMES w = none → (resolveAnalysis w).1 = PyVal.vnone) ∧
    (∀ w : Record, findSyn I_NAMES w = none → (resolveAnalysis w).2.1 = PyVal.vnone) := by
  refine ⟨by simp [resolveAnalysis, hV, hI, hPF], ?_, ?_⟩ <;>
    intro w hw <;> simp [resolveAnalysis, hw]

/-- Witness for C6 on the spec's load2-style record: voltage and current
present, power factor absent, resolved power factor 0.9. -/
theorem C6_witness :
    resolveAnalysis [("v", PyVal.vint 230), ("i", PyVal.vint 5)] =
      (PyVal.vint 230, PyVal.vint 5, PyVal.vfloat 0.9) :=
  (C6_power_factor_default [("v", PyVal.vint 230), ("i", PyVal.vint 5)]
    (PyVal.vint 230) (PyVal.vint 5) rfl rfl rfl).1

/-! ### Claim C7 -/

/-- C7 counterexample: after cleaning the spec's load2 record, the
caller's record has lost its key extra, so the raw record's key-value
mapping is changed by the call: the deletions of line 118 act on the
caller's record in place, and line 141 returns that same dataset. -/
theorem C7_counterexample :
    (clean_or_compute_data [("load2", [("v", PyVal.vint 230), ("i", PyVal.vint 5), ("extra", PyVal.vint 99)])]
        [] false).post =
      [("load2", [("v", PyVal.vint 230), ("i", PyVal.vint 5)])] ∧
    [("load2", [("v", PyVal.vint 230), ("i", PyVal.vint 5)])] ≠
      ([("load2", [("v", PyVal.vint 230), ("i", PyVal.vint 5), ("extra", PyVal.vint 99)])] : Dataset) := by
  refine ⟨rfl, ?_⟩
  simp

/-- The dataset post-state equals the input exactly when no record held
an unrecognized key. -/
lemma map_filter_eq_self_iff (d : Dataset) :
    d.map (fun kv => (kv.1, filterRec kv.2)) = d ↔ ∀ kv ∈ d, filterRec kv.2 = kv.2 := by
  induction d with
  | nil => simp
  | cons e tl ih =>
    obtain ⟨e1, e2⟩ := e
    simp only [List.map_cons, List.cons.injEq, Prod.mk.injEq, true_and, ih]
    constructor
    · rintro ⟨h1, h1r⟩ a hab
      rcases List.mem_cons.mp hab with heq | hab2
      · rw [heq]
        exact h1
      · exact h1r a hab2
    · intro hall
      exact ⟨hall (e1, e2) (List.mem_cons_self _ _),
        fun a hab => hall a (List.mem_cons_of_mem _ hab)⟩

/-- C7 amended: the Field Resolver mutates the caller's raw records in
place, deleting every unrecognized key; after a non-raising cleaning
call the caller's dataset is unchanged precisely when every record
already had only recognized keys, and the value returned is that same
post-state dataset rather than an untouched copy. -/
theorem C7_amended_mutates_in_place (d : Dataset) (st : Status)
    (hok : (clean_or_compute_data d st false).err = none) :
    (clean_or_compute_data d st false).post = d ↔ ∀ kv ∈ d, filterRec kv.2 = kv.2 := by
  have hpost : (clean_or_compute_data d st false).post =
      d.map (fun kv => (kv.1, filterRec kv.2)) :=
    cocLoop_clean_post_of_ok d st hok
  rw [hpost]
  exact map_filter_eq_self_iff d

/-- Witness for the amended C7: a fully recognized record survives the
call unchanged. -/
theorem C7_amended_witness :
    (clean_or_compute_data [("a", [("v", PyVal.vint 1), ("i", PyVal.vint 2)])] [] false).post =
      [("a", [("v", PyVal.vint 1), ("i", PyVal.vint 2)])] :=
  (C7_amended_mutates_in_place [("a", [("v", PyVal.vint 1), ("i", PyVal.vint 2)])] [] rfl).mpr
    (by intro kv hkv; simp at hkv; rw [hkv]; rfl)

/-! ### Claim C8 -/

/-- C8: the Field Resolver is idempotent: a second cleaning pass over
the output of a non-raising cleaning pass succeeds, returns that output
unchanged and records no ignored keys. -/
theorem C8_idempotent_resolution (d : Dataset)
    (hok : (clean_or_compute_data d [] false).err = none) :
    clean_or_compute_data (clean_or_compute_data d [] false).post [] false =
      ⟨(clean_or_compute_data d [] false).post, [], [], none⟩ :=
  cocLoop_clean_idem d [] [] hok

/-- Witness for C8 on a record that loses a key in the first pass. -/
theorem C8_witness :
    clean_or_compute_data
        (clean_or_compute_data
          [("b", [("v", PyVal.vint 7), ("i", PyVal.vint 8), ("junk", PyVal.vnone)])] [] false).post
        [] false =
      ⟨(clean_or_compute_data
          [("b", [("v", PyVal.vint 7), ("i", PyVal.vint 8), ("junk", PyVal.vnone)])] [] false).post,
        [], [], none⟩ :=
  C8_idempotent_resolution [("b", [("v", PyVal.vint 7), ("i", PyVal.vint 8), ("junk", PyVal.vnone)])] rfl

/-! ### Claim C9 -/

/-- On every non-raising compute run, the results are keyed by exactly
the input identifiers, in input order. -/
lemma cocLoop_compute_ids : ∀ (d : Dataset) (st : Status),
    (cocLoop true d st).err = none →
    (cocLoop true d st).results.map Prod.fst = d.map Prod.fst
  | [], _, _ => rfl
  | (k, v) :: rest, st, h => by
    by_cases h2 : numFound (filterRec v) < 2
    · exfalso
      simp [cocLoop, h2] at h
    · cases hcp : calc_power (resolveAnalysis (filterRec v)).1
        (resolveAnalysis (filterRec v)).2.1 (resolveAnalysis (filterRec v)).2.2 with
      | error e =>
        exfalso
        simp [cocLoop, h2, hcp] at h
      | ok t =>
        have h' : (cocLoop true rest
            (if ignoredKeys v = [] then st else statusSet st k (ignoredKeys v))).err = none := by
          simpa [cocLoop, h2, hcp] using h
        have ih := cocLoop_compute_ids rest
          (if ignoredKeys v = [] then st else statusSet st k (ignoredKeys v)) h'
        simp [cocLoop, h2, hcp, ih]

/-- C9: for every input dataset whose compute run raises no error, the
sequence of identifiers of the results dataset equals the sequence of
identifiers of the input dataset, in the same order, one entry per
record; a run in which some record fails raises instead and returns no
results dataset at all. -/
theorem C9_order_preserved (d : Dataset) (st : Status)
    (hok : (clean_or_compute_data d st true).err = none) :
    (clean_or_compute_data d st true).results.map Prod.fst = d.map Prod.fst :=
  cocLoop_compute_ids d st hok

/-- Witness for C9 on a one-record dataset with integer values. -/
theorem C9_witness :
    (clean_or_compute_data [("a", [("v", PyVal.vint 2), ("i", PyVal.vint 3), ("pf", PyVal.vint 1)])]
        [] true).results.map Prod.fst = ["a"] := by
  rw [C9_order_preserved
    [("a", [("v", PyVal.vint 2), ("i", PyVal.vint 3), ("pf", PyVal.vint 1)])] [] rfl]
  rfl

/-! ### Claim C10 -/

lemma lookup_map_overwrite (st : Status) (k a : String) (ig : List String)
    (h : (a == k) = false) :
    (st.map (fun e => if e.1 == k then (k, ig) else e)).lookup a = st.lookup a := by
  induction st with
  | nil => rfl
  | cons e tl ih =>
    obtain ⟨e1, e2⟩ := e
    simp only [List.map_cons]
    split
    · rename_i hcond
      have hek : e1 = k := by simpa using hcond
      subst hek
      simp [List.lookup, h]
      simpa using ih
    · rename_i hcond
      cases hae : a == e1 with
      | true => simp [List.lookup, hae]
      | false =>
        simp [List.lookup, hae]
        simpa using ih

lemma lookup_append_single (st : Status) (k a : String) (ig : List String)
    (h : (a == k) = false) :
    (st ++ [(k, ig)]).lookup a = st.lookup a := by
  induction st with
  | nil => simp [List.lookup, h]
  | cons e tl ih =>
    obtain ⟨e1, e2⟩ := e
    by_cases he : (a == e1) = true
    · simp [List.lookup, he]
    · rw [Bool.not_eq_true] at he
      simp [List.lookup, he, ih]

lemma statusSet_lookup_of_ne (st : Status) (k a : String) (ig : List String)
    (h : (a == k) = false) :
    (statusSet st k ig).lookup a = st.lookup a := by
  rw [statusSet]
  split
  · exact lookup_map_overwrite st k a ig h
  · exact lookup_append_single st k a ig h

/-- A cleaning run only writes status entries for identifiers of its own
dataset: every other identifier's entry is untouched. -/
lemma cocLoop_status_preserve : ∀ (d : Dataset) (st : Status) (a : String),
    a ∉ d.map Prod.fst →
    statusLookup (cocLoop false d st).status a = statusLookup st a
  | [], _, _, _ => rfl
  | (k, v) :: rest, st, a, hmem => by
    have hak : (a == k) = false := by
      simp only [List.map_cons, List.mem_cons, not_or] at hmem
      simpa using hmem.1
    have hrest : a ∉ rest.map Prod.fst := by
      simp only [List.map_cons, List.mem_cons, not_or] at hmem
      exact hmem.2
    have hst1 : statusLookup
        (if ignoredKeys v = [] then st else statusSet st k (ignoredKeys v)) a =
        statusLookup st a := by
      split
      · rfl
      · exact statusSet_lookup_of_ne st k a (ignoredKeys v) hak
    by_cases h2 : numFound (filterRec v) < 2
    · simpa [cocLoop, h2, statusLookup] using hst1
    · have ih := cocLoop_status_preserve rest
        (if ignoredKeys v = [] then st else statusSet st k (ignoredKeys v)) a hrest
      simp [cocLoop, h2, ih]
      exact hst1

/-- C10: the status parameter of clean_or_compute_data defaults to one
dict shared by every call that omits it (modelled by sharedStatusAfter,
which threads the once-created default dict through successive calls):
an ignored-key entry recorded by the first call is still present in the
dict the second call receives, and survives the second call whenever the
second dataset does not write that identifier, so ignored-key reports
accumulate across independent datasets instead of starting empty. -/
theorem C10_shared_default_status (d1 d2 : Dataset) (k : String) (ig : List String)
    (h : statusLookup (sharedStatusAfter [d1]) k = some ig)
    (hk : k ∉ d2.map Prod.fst) :
    statusLookup (sharedStatusAfter [d1, d2]) k = some ig := by
  have hstep : sharedStatusAfter [d1, d2] =
      (clean_or_compute_data d2 (sharedStatusAfter [d1]) false).status := rfl
  rw [hstep, clean_or_compute_data, cocLoop_status_preserve d2 (sharedStatusAfter [d1]) k hk]
  exact h

/-- Witness for C10: the entry the first call records for identifier r1
is still present after a second call on an unrelated dataset. -/
theorem C10_witness :
    statusLookup (sharedStatusAfter
        [[("r1", [("v", PyVal.vint 1), ("i", PyVal.vint 2), ("junk", PyVal.vint 3)])],
         [("r2", [("v", PyVal.vint 4), ("i", PyVal.vint 5)])]]) ("r1") = some [("junk")] :=
  C10_shared_default_status
    [("r1", [("v", PyVal.vint 1), ("i", PyVal.vint 2), ("junk", PyVal.vint 3)])]
    [("r2", [("v", PyVal.vint 4), ("i", PyVal.vint 5)])]
    ("r1") [("junk")] rfl (by decide)

end PowerCalc
